import Mathlib

set_option linter.unusedVariables false

/-!
Verification of the shark-etcher imaging/device core.

The Python modules `shark_etcher/imaging.py`, `shark_etcher/devices.py` and
`shark_etcher/main.py` are shallowly embedded below: byte streams become
`List Nat`, Python exceptions become an explicit sum type threaded through
`Except`, and OS-level effects (opening a device, a write syscall failing,
extracting a zip entry) become explicit parameters or state records.
-/

namespace SharkEtcher

/-- Python exception values that the imaging module can raise or let escape:
`ValueError`, `FlashError`, `VerificationError`, and an uncaught `OSError`. -/
inductive PyExc where
  | valueError (message : String)
  | flashError (message : String)
  | verificationError (message : String)
  | osError (message : String)
  deriving DecidableEq, Repr

/-- Python binary-file read semantics: `read(n)` returns the whole remaining
contents for `n < 0`, nothing for `n = 0`, and at most `n` bytes otherwise. -/
def pyRead (n : Int) (l : List Nat) : List Nat :=
  if n < 0 then l else l.take n.toNat

/-- The stream position after a `pyRead n`: everything read is consumed. -/
def pyDrop (n : Int) (l : List Nat) : List Nat :=
  if n < 0 then [] else l.drop n.toNat

theorem pyDrop_length_lt {n : Int} {l : List Nat}
    (h : (pyRead n l).isEmpty = false) : (pyDrop n l).length < l.length := by
  unfold pyRead pyDrop at *
  by_cases hn : n < 0
  · simp only [hn, if_true] at h ⊢
    cases l with
    | nil => simp at h
    | cons a t => simp
  · simp only [hn, if_false] at h ⊢
    rw [List.isEmpty_eq_false] at h
    have hl : l ≠ [] := by
      intro hl; subst hl; simp at h
    have hk : n.toNat ≠ 0 := by
      intro hk; rw [hk] at h; simp at h
    have hlen : 0 < l.length := List.length_pos.mpr hl
    simp only [List.length_drop]
    omega

/-- Model of an `ImageSource` as used by the streaming engine: whether
`open_stream()` raises an `OSError` (and its text), the decoded bytes the
stream yields, and the possibly-unknown total size. -/
structure ImageSourceM where
  openError : Option String
  data : List Nat
  size : Option Nat
  deriving Repr

/-- The ways `os.open` can fail in `stream_image_to_device` /
`verify_device_contents`. -/
inductive OSOpenFailure where
  | permissionDenied
  | fileNotFound
  | other (strerror : String)
  deriving DecidableEq, Repr

/-- Model of the destination block device for the write pass: its path, how
`os.open(device_path, O_RDWR|O_SYNC)` behaves, its current contents, and an
optional chunk index at which `destination.write` raises an `OSError`. -/
structure WriteDevice where
  path : String
  openFailure : Option OSOpenFailure
  contents : List Nat
  failWriteAt : Option Nat
  deriving Repr

/-- Observable outcome of `stream_image_to_device`: the returned value or
raised exception, whether the image stream was opened, whether the device
was successfully opened for writing, and the device contents afterwards. -/
structure WriteOutcome where
  result : Except PyExc Nat
  imageOpened : Bool
  deviceOpened : Bool
  deviceContents : List Nat
  deriving Repr

/-- The chunk-copy loop of `stream_image_to_device` (imaging.py lines
153-167): read a chunk, stop on empty read, write it (a write raising
`OSError` at chunk index `failAt` aborts the loop with that exception),
accumulate `bytes_written`.  Returns the result together with the number
of bytes successfully flushed to the destination. -/
def writeLoop (chunkSize : Int) (failAt : Option Nat) :
    List Nat → Nat → Nat → Except PyExc Nat × Nat
  | rest, idx, written =>
    let chunk := pyRead chunkSize rest
    if h : chunk.isEmpty then (.ok written, written)
    else if failAt = some idx then
      (.error (.osError "device write failed"), written)
    else
      writeLoop chunkSize failAt (pyDrop chunkSize rest) (idx + 1)
        (written + chunk.length)
  termination_by rest => rest.length
  decreasing_by exact pyDrop_length_lt (by simpa using h)

/-- `stream_image_to_device(image_source, device_path, chunk_size=...,
dry_run=...)` (imaging.py lines 113-172): guard the chunk size, open the
image stream, pick an in-memory sink (`io.BytesIO`) in dry-run mode or open
the device otherwise, then run the chunk-copy loop. -/
def stream_image_to_device (src : ImageSourceM) (dev : WriteDevice)
    (chunkSize : Int) (dryRun : Bool) : WriteOutcome :=
  if chunkSize ≤ 0 then
    { result := .error (.valueError "chunk_size must be positive"),
      imageOpened := false, deviceOpened := false,
      deviceContents := dev.contents }
  else
    match src.openError with
    | some e =>
        { result := .error (.flashError ("Unable to open image: " ++ e)),
          imageOpened := false, deviceOpened := false,
          deviceContents := dev.contents }
    | none =>
      if dryRun then
        { result := (writeLoop chunkSize none src.data 0 0).1,
          imageOpened := true, deviceOpened := false,
          deviceContents := dev.contents }
      else
        match dev.openFailure with
        | some .permissionDenied =>
            { result := .error (.flashError
                ("Permission denied when opening " ++ dev.path
                  ++ ". Try running as root.")),
              imageOpened := true, deviceOpened := false,
              deviceContents := dev.contents }
        | some .fileNotFound =>
            { result := .error (.flashError ("Device not found: " ++ dev.path)),
              imageOpened := true, deviceOpened := false,
              deviceContents := dev.contents }
        | some (.other strerror) =>
            { result := .error (.flashError
                ("Unable to open device " ++ dev.path ++ ": " ++ strerror)),
              imageOpened := true, deviceOpened := false,
              deviceContents := dev.contents }
        | none =>
          let r := writeLoop chunkSize dev.failWriteAt src.data 0 0
          { result := r.1, imageOpened := true, deviceOpened := true,
            deviceContents := src.data.take r.2 ++ dev.contents.drop r.2 }

/-- Model of the device as reopened read-only by `verify_device_contents`:
how `os.open(device_path, O_RDONLY)` behaves and the readable contents. -/
structure ReadDevice where
  path : String
  openFailure : Option OSOpenFailure
  contents : List Nat
  deriving Repr

/-- The comparison loop of `verify_device_contents` (imaging.py lines
207-219): read an image chunk, stop on empty read, read exactly
`len(image_chunk)` bytes from the device, raise `VerificationError` naming
`bytes_checked` on mismatch, otherwise advance both streams. -/
def verifyLoop (chunkSize : Int) :
    List Nat → List Nat → Nat → Except PyExc Unit
  | img, dev, checked =>
    let imageChunk := pyRead chunkSize img
    if h : imageChunk.isEmpty then .ok ()
    else
      let deviceChunk := dev.take imageChunk.length
      if imageChunk = deviceChunk then
        verifyLoop chunkSize (pyDrop chunkSize img)
          (dev.drop imageChunk.length) (checked + imageChunk.length)
      else
        .error (.verificationError
          ("Verification failed at offset " ++ toString checked))
  termination_by img => img.length
  decreasing_by exact pyDrop_length_lt (by simpa using h)

/-- `verify_device_contents(image_source, device_path, chunk_size=...)`
(imaging.py lines 175-222): reopen the image stream, open the device
read-only, then run the comparison loop from offset 0. -/
def verify_device_contents (src : ImageSourceM) (dev : ReadDevice)
    (chunkSize : Int) : Except PyExc Unit :=
  match src.openError with
  | some e => .error (.verificationError ("Unable to reopen image: " ++ e))
  | none =>
    match dev.openFailure with
    | some .permissionDenied =>
        .error (.verificationError
          ("Permission denied when reading " ++ dev.path
            ++ ". Try running as root."))
    | some .fileNotFound =>
        .error (.verificationError ("Device not found: " ++ dev.path))
    | some (.other strerror) =>
        .error (.verificationError
          ("Unable to read " ++ dev.path ++ ": " ++ strerror))
    | none => verifyLoop chunkSize src.data dev.contents 0

/-! ## Unmount orchestration (devices.py) -/

/-- `UnmountError` carries the message and the list of mountpoints that
were successfully unmounted before the failure was reported
(devices.py lines 32-37, field `self.partial`). -/
structure UnmountErrorM where
  message : String
  partialUnmounted : List String
  deriving DecidableEq, Repr

/-- The target list of `unmount_device` (devices.py line 58):
`sorted({mp for mp in device.mountpoints if mp}, key=len, reverse=True)` —
the non-empty mountpoints, deduplicated, ordered by path length
descending. -/
def unmountTargets (mountpoints : List String) : List String :=
  ((mountpoints.filter (fun mp => !mp.isEmpty)).dedup).mergeSort
    (fun a b => b.length ≤ a.length)

/-- The per-target loop of `unmount_device` (devices.py lines 62-69): every
target is attempted via `_unmount_target` (abstracted as the oracle `ok`,
since it shells out to umount/udisksctl); successes and failures are
collected independently, in order. -/
def unmountLoop (ok : String → Bool) (targets : List String) :
    List String × List String :=
  targets.foldl
    (fun acc target =>
      if ok target then (acc.1 ++ [target], acc.2)
      else (acc.1, acc.2 ++ [target]))
    ([], [])

/-- `unmount_device(device)` (devices.py lines 52-75): sort the targets,
return `[]` when there are none, attempt each, and raise `UnmountError`
carrying the partial-success list when any target failed. -/
def unmount_device (mountpoints : List String) (ok : String → Bool) :
    Except UnmountErrorM (List String) :=
  let targets := unmountTargets mountpoints
  if targets.isEmpty then .ok []
  else
    let r := unmountLoop ok targets
    if r.2.isEmpty then .ok r.1
    else .error
      { message := "Failed to unmount: " ++ String.intercalate ", " r.2,
        partialUnmounted := r.1 }

/-! ## Zip image sources (imaging.py, prepare_image_source zip branch) -/

/-- The fields of a `zipfile.ZipInfo` entry that the zip branch reads. -/
structure ZipInfo where
  filename : String
  is_dir : Bool
  file_size : Nat
  deriving DecidableEq, Repr

/-- `Path(entry.filename).name`: the final component of a slash-separated
path. -/
def pathName (filename : String) : String :=
  ((filename.splitOn "/").getLast?).getD filename

/-- The static data of a prepared zip source: the extraction target path
under the fresh temporary directory, the reported size (the entry's
uncompressed size) and the display name. -/
structure ZipSourceModel where
  target_path : String
  size : Nat
  display_name : String
  deriving DecidableEq, Repr

/-- The zip branch of `prepare_image_source` (imaging.py lines 65-96):
filter out directory entries, require exactly one remaining entry, and
build the source metadata from it. -/
def prepare_image_source_zip (zipName tempDir : String)
    (infos : List ZipInfo) : Except PyExc ZipSourceModel :=
  let entries := infos.filter (fun i => !i.is_dir)
  match entries with
  | [entry] =>
      .ok { target_path := tempDir ++ "/" ++ pathName entry.filename,
            size := entry.file_size,
            display_name := zipName ++ " -> " ++ entry.filename }
  | _ => .error (.flashError "ZIP archives must contain exactly one image file")

/-- The filesystem state that zip extraction observes and mutates: whether
the target file exists, and how many extractions have been performed (the
observable side-effect counter). -/
structure ZipExtractState where
  targetExists : Bool
  extractions : Nat
  deriving DecidableEq, Repr

/-- `ensure_extracted` (imaging.py lines 74-80): if `target_path` already
exists return it unchanged, otherwise extract the archive entry to it
(one more extraction, the file now exists) and return it. -/
def ensure_extracted (m : ZipSourceModel) (s : ZipExtractState) :
    String × ZipExtractState :=
  if s.targetExists then (m.target_path, s)
  else (m.target_path, { targetExists := true, extractions := s.extractions + 1 })

/-! ## Flash lifecycle (imaging.py, flash_image / run_cleanup) -/

/-- `run_cleanup` (imaging.py lines 98-103): call every registered cleanup
callback in order, swallowing any exception a callback raises (`try ...
except Exception: pass`), so every callback is invoked regardless of the
raise flags.  Returns the number of callbacks invoked. -/
def run_cleanup (callbackRaises : List Bool) : Nat :=
  callbackRaises.foldl (fun invoked _raises => invoked + 1) 0

/-- `flash_image` (imaging.py lines 225-256) with the write and verify
passes abstracted by their results: run the write; on success, verify when
requested and not a dry run; the `finally` block invokes the source's
cleanup capability exactly once on the exit path taken.  The second
component is the number of cleanup-callback invocations performed. -/
def flash_image (writeRes : Except PyExc Nat) (verifyRes : Except PyExc Unit)
    (verify dryRun : Bool) (callbackRaises : List Bool) :
    Except PyExc Nat × Nat :=
  match writeRes with
  | .error e => (.error e, run_cleanup callbackRaises)
  | .ok written =>
    if verify && !dryRun then
      match verifyRes with
      | .error e => (.error e, run_cleanup callbackRaises)
      | .ok _ => (.ok written, run_cleanup callbackRaises)
    else (.ok written, run_cleanup callbackRaises)

/-! ## Worker event protocol (main.py, _run_worker) -/

/-- The closed set of line-delimited events a worker emits. -/
inductive WorkerEvent where
  | progress (phase : String) (current : Nat) (total : Option Nat)
  | status (message : String)
  | log (message : String)
  | done (bytes_written : Nat) (dry_run : Bool)
  | error (message : String)
  deriving DecidableEq, Repr

/-- `done` and `error` are the terminal events; `progress`, `status` and
`log` are not. -/
def isTerminalEvent : WorkerEvent → Bool
  | .done _ _ => true
  | .error _ => true
  | _ => false

/-- The outcome of the `flash_image` call inside the worker, as
discriminated by the `except` clauses of `_run_worker`. -/
inductive FlashResult where
  | ok (written : Nat)
  | flashError (message : String)
  | verificationError (message : String)
  | keyboardInterrupt
  | unexpected (message : String)
  deriving DecidableEq, Repr

/-- Python truthiness check of an optional string argument: `not args.image`
holds when the argument is absent or the empty string. -/
def pyFalsy : Option String → Bool
  | none => true
  | some s => s.isEmpty

/-- The worker-relevant command-line arguments. -/
structure WorkerArgs where
  image : Option String
  device : Option String
  dry_run : Bool
  deriving Repr

/-- The tail of `_run_worker` (main.py lines 283-312): run the flash after
the events in `pre`, then emit the single terminal event and return the
exit code of the outcome's category. -/
def workerFlashPhase (pre flashEvents : List WorkerEvent)
    (flashRes : FlashResult) (dry_run : Bool) : List WorkerEvent × Nat :=
  match flashRes with
  | .ok written => (pre ++ flashEvents ++ [.done written dry_run], 0)
  | .flashError m => (pre ++ flashEvents ++ [.error m], 2)
  | .verificationError m => (pre ++ flashEvents ++ [.error m], 3)
  | .keyboardInterrupt =>
      (pre ++ flashEvents ++ [.error "Operation cancelled"], 130)
  | .unexpected m =>
      (pre ++ flashEvents ++ [.error ("Unexpected error: " ++ m)], 99)

/-- `_run_worker` (main.py lines 259-312): emitted events and exit code.
`deviceMounts` is the mountpoint list of `find_device_by_path` (absent when
the lookup failed); `unmountRes` is the outcome of `unmount_device` when it
is attempted; `flashEvents` are the progress/status events the callbacks
emit during `flash_image`, whose outcome is `flashRes`. -/
def run_worker (args : WorkerArgs) (deviceMounts : Option (List String))
    (unmountRes : Except UnmountErrorM (List String))
    (flashEvents : List WorkerEvent) (flashRes : FlashResult) :
    List WorkerEvent × Nat :=
  if pyFalsy args.image || pyFalsy args.device then
    ([.error "Worker missing required arguments"], 64)
  else
    let deviceName := args.device.getD ""
    match deviceMounts with
    | some mounts =>
      if !mounts.isEmpty && !args.dry_run then
        match unmountRes with
        | .error exc =>
            ([.status ("Unmounting " ++ deviceName), .error exc.message], 10)
        | .ok unmounted =>
            workerFlashPhase
              (.status ("Unmounting " ++ deviceName)
                :: unmounted.map (fun mp => .log ("Unmounted " ++ mp)))
              flashEvents flashRes args.dry_run
      else workerFlashPhase [] flashEvents flashRes args.dry_run
    | none =>
        workerFlashPhase
          [.log ("Warning: could not refresh device info for " ++ deviceName)]
          flashEvents flashRes args.dry_run

/-! ## Helper lemmas about the stream primitives -/

theorem pyRead_of_pos {n : Int} (h : 0 < n) (l : List Nat) :
    pyRead n l = l.take n.toNat := by
  unfold pyRead
  rw [if_neg (by omega)]

theorem pyDrop_of_pos {n : Int} (h : 0 < n) (l : List Nat) :
    pyDrop n l = l.drop n.toNat := by
  unfold pyDrop
  rw [if_neg (by omega)]

theorem toNat_pos {n : Int} (h : 0 < n) : 0 < n.toNat := by omega

/-- With a positive chunk size and no failing write, the chunk-copy loop
returns `written` plus the full remaining stream length, and flushes the
same amount. -/
theorem writeLoop_none (chunkSize : Int) (hcs : 0 < chunkSize) :
    ∀ (n : Nat) (l : List Nat), l.length ≤ n → ∀ (idx written : Nat),
      writeLoop chunkSize none l idx written =
        (.ok (written + l.length), written + l.length) := by
  intro n
  induction n with
  | zero =>
    intro l hl idx written
    have hnil : l = [] := List.length_eq_zero.mp (Nat.le_zero.mp hl)
    subst hnil
    rw [writeLoop]
    simp [pyRead_of_pos hcs]
  | succ n ih =>
    intro l hl idx written
    rw [writeLoop]
    cases l with
    | nil => simp [pyRead_of_pos hcs]
    | cons a t =>
      have hc := toNat_pos hcs
      have hne : (pyRead chunkSize (a :: t)).isEmpty = false := by
        rw [pyRead_of_pos hcs]
        cases hk : chunkSize.toNat with
        | zero => omega
        | succ k => simp
      simp only [hne, Bool.false_eq_true, dite_false]
      have hrec := ih (pyDrop chunkSize (a :: t))
        (by
          have := pyDrop_length_lt (n := chunkSize) (l := a :: t) hne
          omega)
        (idx + 1) (written + (pyRead chunkSize (a :: t)).length)
      rw [hrec]
      have hlen : (pyRead chunkSize (a :: t)).length
          + (pyDrop chunkSize (a :: t)).length = (a :: t).length := by
        rw [pyRead_of_pos hcs, pyDrop_of_pos hcs]
        simp only [List.length_take, List.length_drop]
        omega
      have hsum : written + (pyRead chunkSize (a :: t)).length
          + (pyDrop chunkSize (a :: t)).length = written + (a :: t).length := by
        omega
      rw [hsum]
      simp

theorem writeLoop_result (chunkSize : Int) (failAt : Option Nat) :
    ∀ (n : Nat) (l : List Nat), l.length ≤ n → ∀ (idx written : Nat),
      (∃ k, (writeLoop chunkSize failAt l idx written).1 = .ok k) ∨
      (writeLoop chunkSize failAt l idx written).1 =
        .error (.osError "device write failed") := by
  intro n
  induction n with
  | zero =>
    intro l hl idx written
    have hnil : l = [] := List.length_eq_zero.mp (Nat.le_zero.mp hl)
    subst hnil
    have hread : pyRead chunkSize [] = [] := by
      unfold pyRead
      split <;> simp
    rw [writeLoop, hread]
    exact Or.inl ⟨written, rfl⟩
  | succ n ih =>
    intro l hl idx written
    rw [writeLoop]
    split
    · exact Or.inl ⟨written, rfl⟩
    · split
      · exact Or.inr rfl
      · rename_i hne hfail
        exact ih (pyDrop chunkSize l)
          (by
            have := pyDrop_length_lt (n := chunkSize) (l := l) (by simpa using hne)
            omega)
          (idx + 1) (written + (pyRead chunkSize l).length)

/-! ## C1: dry-run writes never open the device -/

/-- C1: with `dry_run` set, `stream_image_to_device` never opens the device
file for writing and leaves the device contents untouched (the destination
is the in-memory sink), and — whenever the call returns, i.e. the chunk
size is positive and the image stream opens — the returned `bytes_written`
equals the total length of the bytes produced by the source stream. -/
theorem dry_run_never_opens_device (src : ImageSourceM) (dev : WriteDevice)
    (chunkSize : Int) :
    (stream_image_to_device src dev chunkSize true).deviceOpened = false ∧
    (stream_image_to_device src dev chunkSize true).deviceContents
      = dev.contents ∧
    (0 < chunkSize → src.openError = none →
      (stream_image_to_device src dev chunkSize true).result
        = .ok src.data.length) := by
  unfold stream_image_to_device
  by_cases hcs : chunkSize ≤ 0
  · rw [if_pos hcs]
    exact ⟨rfl, rfl, fun h _ => absurd h (by omega)⟩
  · rw [if_neg hcs]
    cases hsrc : src.openError with
    | some e => exact ⟨rfl, rfl, fun _ h => by simp at h⟩
    | none =>
      refine ⟨rfl, rfl, fun hpos _ => ?_⟩
      have hloop := writeLoop_none chunkSize (by omega)
        src.data.length src.data le_rfl 0 0
      simp only [hloop]
      simp

theorem dry_run_never_opens_device_witness :
    (stream_image_to_device
        { openError := none, data := [1, 2, 3], size := some 3 }
        { path := "/dev/sdz", openFailure := none, contents := [9, 9],
          failWriteAt := none } 2 true).deviceOpened = false ∧
    (stream_image_to_device
        { openError := none, data := [1, 2, 3], size := some 3 }
        { path := "/dev/sdz", openFailure := none, contents := [9, 9],
          failWriteAt := none } 2 true).deviceContents = [9, 9] ∧
    (stream_image_to_device
        { openError := none, data := [1, 2, 3], size := some 3 }
        { path := "/dev/sdz", openFailure := none, contents := [9, 9],
          failWriteAt := none } 2 true).result = .ok 3 := by
  have h := dry_run_never_opens_device
    { openError := none, data := [1, 2, 3], size := some 3 }
    { path := "/dev/sdz", openFailure := none, contents := [9, 9],
      failWriteAt := none } 2
  exact ⟨h.1, h.2.1, h.2.2 (by norm_num) rfl⟩

/-! ## C10: the chunk-size guard -/

/-- C10: a call with `chunk_size ≤ 0` raises `ValueError` before the image
stream or the device is opened and without touching the device contents;
with `chunk_size > 0` no execution path raises a `ValueError`. -/
theorem chunk_size_guard (src : ImageSourceM) (dev : WriteDevice)
    (chunkSize : Int) (dryRun : Bool) :
    (chunkSize ≤ 0 →
      stream_image_to_device src dev chunkSize dryRun =
        { result := .error (.valueError "chunk_size must be positive"),
          imageOpened := false, deviceOpened := false,
          deviceContents := dev.contents }) ∧
    (0 < chunkSize → ∀ m,
      (stream_image_to_device src dev chunkSize dryRun).result ≠
        .error (.valueError m)) := by
  constructor
  · intro h
    unfold stream_image_to_device
    rw [if_pos h]
  · intro h m
    unfold stream_image_to_device
    rw [if_neg (by omega)]
    cases hsrc : src.openError with
    | some e => simp
    | none =>
      cases dryRun with
      | true =>
        rcases writeLoop_result chunkSize none src.data.length src.data
            le_rfl 0 0 with ⟨k, hk⟩ | hk <;>
          simp only [if_pos rfl, hk] <;> simp
      | false =>
        cases hdev : dev.openFailure with
        | some f => cases f <;> simp
        | none =>
          rcases writeLoop_result chunkSize dev.failWriteAt src.data.length
              src.data le_rfl 0 0 with ⟨k, hk⟩ | hk <;>
            simp only [hk] <;> simp

theorem chunk_size_guard_witness :
    stream_image_to_device
        { openError := none, data := [5], size := some 1 }
        { path := "/dev/sdc", openFailure := none, contents := [], failWriteAt := none }
        0 false =
      { result := .error (.valueError "chunk_size must be positive"),
        imageOpened := false, deviceOpened := false, deviceContents := [] } ∧
    (stream_image_to_device
        { openError := none, data := [5], size := some 1 }
        { path := "/dev/sdc", openFailure := none, contents := [], failWriteAt := none }
        1 false).result ≠
      .error (.valueError "chunk_size must be positive") := by
  refine ⟨(chunk_size_guard _ _ 0 false).1 (by norm_num), ?_⟩
  exact (chunk_size_guard
    { openError := none, data := [5], size := some 1 }
    { path := "/dev/sdc", openFailure := none, contents := [], failWriteAt := none }
    1 false).2 (by norm_num) "chunk_size must be positive"

/-! ## C3: which failures become FlashError -/

/-- C3 counterexample: with a device that opens successfully but whose
first chunk write raises an `OSError`, `stream_image_to_device` lets the
`OSError` escape unchanged — the claim that every OS-level I/O failure
occurring during the write surfaces as a `FlashError` is false. -/
theorem write_oserror_escapes_counterexample :
    (stream_image_to_device { openError := none, data := [7], size := some 1 }
        { path := "/dev/sdz", openFailure := none, contents := [0, 0],
          failWriteAt := some 0 } 1 false).result =
      .error (.osError "device write failed") := by
  simp [stream_image_to_device, writeLoop, pyRead, pyDrop]

/-- C3 amended: `stream_image_to_device` fails with a `FlashError` carrying
the device path or OS error detail on permission denial, on a missing
device, and on any other OS-level failure when opening the device, and on a
failure to open the image stream; an OS-level failure raised by a chunk
write inside the copy loop instead propagates as the underlying `OSError`. -/
theorem write_flash_error_on_open_failure (src : ImageSourceM)
    (dev : WriteDevice) (chunkSize : Int) (hcs : 0 < chunkSize) :
    (∀ e dryRun, src.openError = some e →
      (stream_image_to_device src dev chunkSize dryRun).result =
        .error (.flashError ("Unable to open image: " ++ e))) ∧
    (src.openError = none → dev.openFailure = some .permissionDenied →
      (stream_image_to_device src dev chunkSize false).result =
        .error (.flashError ("Permission denied when opening " ++ dev.path
          ++ ". Try running as root."))) ∧
    (src.openError = none → dev.openFailure = some .fileNotFound →
      (stream_image_to_device src dev chunkSize false).result =
        .error (.flashError ("Device not found: " ++ dev.path))) ∧
    (∀ strerror, src.openError = none →
      dev.openFailure = some (.other strerror) →
      (stream_image_to_device src dev chunkSize false).result =
        .error (.flashError ("Unable to open device " ++ dev.path ++ ": "
          ++ strerror))) := by
  refine ⟨fun e dryRun he => ?_, fun hs hd => ?_, fun hs hd => ?_,
      fun strerror hs hd => ?_⟩ <;>
    unfold stream_image_to_device <;>
    rw [if_neg (by omega)] <;>
    simp_all

theorem write_flash_error_on_open_failure_witness :
    (0 : Int) < 1 ∧
    (stream_image_to_device { openError := none, data := [7], size := some 1 }
        { path := "/dev/sdb", openFailure := some .fileNotFound,
          contents := [], failWriteAt := none } 1 false).result =
      .error (.flashError ("Device not found: " ++ "/dev/sdb")) := by
  refine ⟨by norm_num, ?_⟩
  exact (write_flash_error_on_open_failure
    { openError := none, data := [7], size := some 1 }
    { path := "/dev/sdb", openFailure := some .fileNotFound,
      contents := [], failWriteAt := none } 1 (by norm_num)).2.2.1 rfl rfl

/-! ## Helper lemmas about the verification loop -/

theorem pyRead_nil (chunkSize : Int) : pyRead chunkSize [] = [] := by
  unfold pyRead
  split <;> simp

theorem pyRead_cons_ne_nil {chunkSize : Int} (hcs : 0 < chunkSize)
    (a : Nat) (t : List Nat) :
    (pyRead chunkSize (a :: t)).isEmpty = false := by
  rw [pyRead_of_pos hcs]
  have hc := toNat_pos hcs
  cases hk : chunkSize.toNat with
  | zero => omega
  | succ k => simp

/-- `l.drop (min c l.length) = l.drop c`. -/
theorem drop_min_length (c : Nat) (l : List Nat) :
    l.drop (min c l.length) = l.drop c := by
  by_cases h : c ≤ l.length
  · rw [Nat.min_eq_left h]
  · rw [Nat.min_eq_right (by omega)]
    rw [List.drop_length, List.drop_eq_nil_of_le (by omega)]

/-- `l.take (min c l.length) = l.take c`. -/
theorem take_min_length (c : Nat) (l : List Nat) :
    l.take (min c l.length) = l.take c := by
  rw [List.take_eq_take]
  omega

/-- With a positive chunk size, the verification loop succeeds whenever the
device stream extends the image stream: the loop stops as soon as the image
is exhausted and never reads the device beyond each image chunk's length. -/
theorem verifyLoop_ok_prefix (chunkSize : Int) (hcs : 0 < chunkSize) :
    ∀ (n : Nat) (img extra : List Nat), img.length ≤ n → ∀ (checked : Nat),
      verifyLoop chunkSize img (img ++ extra) checked = .ok () := by
  intro n
  induction n with
  | zero =>
    intro img extra hl checked
    have hnil : img = [] := List.length_eq_zero.mp (Nat.le_zero.mp hl)
    subst hnil
    rw [verifyLoop, pyRead_nil]
    rfl
  | succ n ih =>
    intro img extra hl checked
    cases img with
    | nil =>
      rw [verifyLoop, pyRead_nil]
      rfl
    | cons a t =>
      rw [verifyLoop]
      have hc := toNat_pos hcs
      have hne := pyRead_cons_ne_nil hcs a t
      simp only [hne, Bool.false_eq_true, dite_false]
      have hread : pyRead chunkSize (a :: t) = (a :: t).take chunkSize.toNat :=
        pyRead_of_pos hcs (a :: t)
      have hlen : (pyRead chunkSize (a :: t)).length
          = min chunkSize.toNat (a :: t).length := by
        rw [hread]; simp
      have hchunk : ((a :: t) ++ extra).take (pyRead chunkSize (a :: t)).length
          = pyRead chunkSize (a :: t) := by
        rw [hlen, hread,
          List.take_append_of_le_length (Nat.min_le_right _ _),
          take_min_length]
      rw [if_pos hchunk.symm]
      have hdrop : ((a :: t) ++ extra).drop (pyRead chunkSize (a :: t)).length
          = pyDrop chunkSize (a :: t) ++ extra := by
        rw [hlen, List.drop_append_of_le_length (Nat.min_le_right _ _),
          drop_min_length, pyDrop_of_pos hcs]
      rw [hdrop]
      exact ih (pyDrop chunkSize (a :: t)) extra
        (by
          have := pyDrop_length_lt (n := chunkSize) (l := a :: t) hne
          omega)
        (checked + (pyRead chunkSize (a :: t)).length)

/-- With a positive chunk size, if the two streams first differ at byte
`k` (within the image's length), the verification loop fails at the
enclosing chunk's starting offset: `checked + c * (k / c)` where `c` is the
chunk size. -/
theorem verifyLoop_mismatch (chunkSize : Int) (hcs : 0 < chunkSize) :
    ∀ (n : Nat) (img dev : List Nat), img.length ≤ n →
    ∀ (k checked : Nat), k < img.length →
      img.take k = dev.take k → img[k]? ≠ dev[k]? →
      verifyLoop chunkSize img dev checked =
        .error (.verificationError
          ("Verification failed at offset "
            ++ toString (checked + chunkSize.toNat * (k / chunkSize.toNat)))) := by
  intro n
  induction n with
  | zero =>
    intro img dev hl k checked hk _ _
    omega
  | succ n ih =>
    intro img dev hl k checked hk htake hget
    have hc := toNat_pos hcs
    cases img with
    | nil => simp at hk
    | cons a t =>
      rw [verifyLoop]
      have hne := pyRead_cons_ne_nil hcs a t
      simp only [hne, Bool.false_eq_true, dite_false]
      have hread : pyRead chunkSize (a :: t) = (a :: t).take chunkSize.toNat :=
        pyRead_of_pos hcs (a :: t)
      have hlen : (pyRead chunkSize (a :: t)).length
          = min chunkSize.toNat (a :: t).length := by
        rw [hread]; simp
      by_cases hkc : k < chunkSize.toNat
      · -- the mismatch is inside the first chunk
        have hne2 : pyRead chunkSize (a :: t)
            ≠ dev.take (pyRead chunkSize (a :: t)).length := by
          intro heq
          apply hget
          have h1 : (pyRead chunkSize (a :: t))[k]? = (a :: t)[k]? := by
            rw [hread]
            exact List.getElem?_take_of_lt hkc
          have h2 : (dev.take (pyRead chunkSize (a :: t)).length)[k]?
              = dev[k]? := by
            apply List.getElem?_take_of_lt
            rw [hlen]
            omega
          rw [← h1, heq, h2]
        rw [if_neg hne2]
        have hdiv : k / chunkSize.toNat = 0 := Nat.div_eq_of_lt hkc
        rw [hdiv]
        simp
      · -- the first chunk matches; recurse with k - c
        push_neg at hkc
        have hckle : chunkSize.toNat ≤ k := hkc
        have hcl : chunkSize.toNat < (a :: t).length := by omega
        have hmin : min chunkSize.toNat (a :: t).length = chunkSize.toNat := by
          omega
        have hchunkeq : pyRead chunkSize (a :: t)
            = dev.take (pyRead chunkSize (a :: t)).length := by
          rw [hlen, hmin, hread]
          have h1 : ((a :: t).take k).take chunkSize.toNat
              = (dev.take k).take chunkSize.toNat := by rw [htake]
          rwa [List.take_take, List.take_take, Nat.min_eq_left hckle] at h1
        rw [if_pos hchunkeq]
        have hdroplen : (pyDrop chunkSize (a :: t)).length
            = (a :: t).length - chunkSize.toNat := by
          rw [pyDrop_of_pos hcs]; simp
        have htake2 : (pyDrop chunkSize (a :: t)).take (k - chunkSize.toNat)
            = (dev.drop (pyRead chunkSize (a :: t)).length).take
                (k - chunkSize.toNat) := by
          rw [pyDrop_of_pos hcs, hlen, hmin]
          rw [← List.drop_take, ← List.drop_take, htake]
        have hget2 : (pyDrop chunkSize (a :: t))[k - chunkSize.toNat]?
            ≠ (dev.drop (pyRead chunkSize (a :: t)).length)[k - chunkSize.toNat]? := by
          rw [pyDrop_of_pos hcs, hlen, hmin]
          rw [List.getElem?_drop, List.getElem?_drop,
            Nat.add_sub_cancel' hckle]
          exact hget
        have hrec := ih (pyDrop chunkSize (a :: t))
          (dev.drop (pyRead chunkSize (a :: t)).length)
          (by
            have := pyDrop_length_lt (n := chunkSize) (l := a :: t) hne
            omega)
          (k - chunkSize.toNat)
          (checked + (pyRead chunkSize (a :: t)).length)
          (by rw [hdroplen]; omega)
          htake2 hget2
        rw [hrec]
        have hreadlen : (pyRead chunkSize (a :: t)).length = chunkSize.toNat := by
          rw [hlen, hmin]
        have hoff : checked + (pyRead chunkSize (a :: t)).length
              + chunkSize.toNat * ((k - chunkSize.toNat) / chunkSize.toNat)
            = checked + chunkSize.toNat * (k / chunkSize.toNat) := by
          rw [hreadlen, Nat.div_eq_sub_div hc hckle, Nat.mul_succ]
          omega
        rw [hoff]

/-! ## C2: verification failure offsets are chunk-aligned -/

/-- C2: when the decoded image and the device contents first differ at
byte `k` (`k` within the image length), `verify_device_contents` fails with
a `VerificationError` whose reported offset is `k` rounded down to the
nearest chunk boundary — the sum of the lengths of all previously matching
chunks; and when the two byte streams are equal, verification completes
without raising, including on a final partial chunk. -/
theorem verify_offset_at_chunk_boundary (src : ImageSourceM)
    (dev : ReadDevice) (chunkSize : Int) (hcs : 0 < chunkSize)
    (hsrc : src.openError = none) (hdev : dev.openFailure = none) :
    (∀ k, k < src.data.length →
      src.data.take k = dev.contents.take k →
      src.data[k]? ≠ dev.contents[k]? →
      verify_device_contents src dev chunkSize =
        .error (.verificationError
          ("Verification failed at offset "
            ++ toString (chunkSize.toNat * (k / chunkSize.toNat))))) ∧
    (src.data = dev.contents →
      verify_device_contents src dev chunkSize = .ok ()) := by
  unfold verify_device_contents
  rw [hsrc, hdev]
  constructor
  · intro k hk htake hget
    have h := verifyLoop_mismatch chunkSize hcs src.data.length src.data
      dev.contents le_rfl k 0 hk htake hget
    simpa using h
  · intro heq
    rw [← heq]
    have h := verifyLoop_ok_prefix chunkSize hcs src.data.length src.data []
      le_rfl 0
    rwa [List.append_nil] at h

theorem verify_offset_at_chunk_boundary_witness :
    verify_device_contents
        { openError := none, data := [1, 2, 3, 4, 5], size := some 5 }
        { path := "/dev/sdb", openFailure := none,
          contents := [1, 2, 9, 4, 5] } 2 =
      .error (.verificationError "Verification failed at offset 2") ∧
    verify_device_contents
        { openError := none, data := [1, 2, 3, 4, 5], size := some 5 }
        { path := "/dev/sdb", openFailure := none,
          contents := [1, 2, 3, 4, 5] } 2 = .ok () := by
  constructor
  · have h := (verify_offset_at_chunk_boundary
      { openError := none, data := [1, 2, 3, 4, 5], size := some 5 }
      { path := "/dev/sdb", openFailure := none, contents := [1, 2, 9, 4, 5] }
      2 (by norm_num) rfl rfl).1 2 (by norm_num) rfl (by decide)
    rw [h]
    rfl
  · exact (verify_offset_at_chunk_boundary
      { openError := none, data := [1, 2, 3, 4, 5], size := some 5 }
      { path := "/dev/sdb", openFailure := none, contents := [1, 2, 3, 4, 5] }
      2 (by norm_num) rfl rfl).2 rfl

/-! ## C9: trailing device bytes are never compared -/

/-- C9: `verify_device_contents` reads from the device only as many bytes
as each image chunk provides and stops once the image stream is exhausted,
so verification succeeds whenever the device contents start with the
decoded image, whatever bytes follow. -/
theorem verify_ignores_trailing_device_bytes (src : ImageSourceM)
    (dev : ReadDevice) (chunkSize : Int) (hcs : 0 < chunkSize)
    (hsrc : src.openError = none) (hdev : dev.openFailure = none)
    (extra : List Nat) (hcontents : dev.contents = src.data ++ extra) :
    verify_device_contents src dev chunkSize = .ok () := by
  unfold verify_device_contents
  rw [hsrc, hdev, hcontents]
  exact verifyLoop_ok_prefix chunkSize hcs src.data.length src.data extra
    le_rfl 0

theorem verify_ignores_trailing_device_bytes_witness :
    verify_device_contents
        { openError := none, data := [1, 2, 3], size := some 3 }
        { path := "/dev/sdb", openFailure := none,
          contents := [1, 2, 3, 9, 9] } 2 = .ok () :=
  verify_ignores_trailing_device_bytes
    { openError := none, data := [1, 2, 3], size := some 3 }
    { path := "/dev/sdb", openFailure := none, contents := [1, 2, 3, 9, 9] }
    2 (by norm_num) rfl rfl [9, 9] rfl

/-! ## C4 and C5: unmount orchestration -/

theorem unmountLoop_eq_filter (ok : String → Bool) (targets : List String) :
    unmountLoop ok targets =
      (targets.filter ok, targets.filter (fun t => !ok t)) := by
  unfold unmountLoop
  have h : ∀ (ts acc1 acc2 : List String),
      ts.foldl (fun acc target =>
          if ok target then (acc.1 ++ [target], acc.2)
          else (acc.1, acc.2 ++ [target])) (acc1, acc2)
        = (acc1 ++ ts.filter ok, acc2 ++ ts.filter (fun t => !ok t)) := by
    intro ts
    induction ts with
    | nil => intro acc1 acc2; simp
    | cons t ts ih =>
      intro acc1 acc2
      by_cases hok : ok t <;> simp [hok, ih, List.filter_cons]
  simpa using h targets [] []

/-- C4: `unmount_device` attempts every target independently — a failing
target does not prevent attempts on the rest — and only after all targets
are attempted does it either return the full target list (when every
attempt succeeded) or raise `UnmountError` carrying exactly the list of
targets that were successfully unmounted. -/
theorem unmount_collects_all_results (mountpoints : List String)
    (ok : String → Bool) :
    ((unmountTargets mountpoints).all ok = true →
      unmount_device mountpoints ok = .ok (unmountTargets mountpoints)) ∧
    (∀ t, t ∈ unmountTargets mountpoints → ok t = false →
      unmount_device mountpoints ok =
        .error { message := "Failed to unmount: " ++ String.intercalate ", "
                   ((unmountTargets mountpoints).filter (fun u => !ok u)),
                 partialUnmounted :=
                   (unmountTargets mountpoints).filter ok }) := by
  unfold unmount_device
  simp only [unmountLoop_eq_filter]
  constructor
  · intro hall
    have hfilter : (unmountTargets mountpoints).filter ok
        = unmountTargets mountpoints :=
      List.filter_eq_self.mpr (fun a ha => List.all_eq_true.mp hall a ha)
    have hfilter2 : (unmountTargets mountpoints).filter (fun t => !ok t)
        = [] := by
      rw [List.filter_eq_nil_iff]
      intro a ha
      simp [List.all_eq_true.mp hall a ha]
    by_cases hemp : (unmountTargets mountpoints).isEmpty
    · rw [if_pos hemp]
      rw [List.isEmpty_iff] at hemp
      rw [hemp]
    · rw [if_neg hemp]
      rw [hfilter2]
      simp [hfilter]
  · intro t ht hfail
    have hemp : (unmountTargets mountpoints).isEmpty = false := by
      rw [List.isEmpty_eq_false]
      intro hnil
      rw [hnil] at ht
      simp at ht
    rw [if_neg (by simp [hemp])]
    have hne : ((unmountTargets mountpoints).filter
        (fun u => !ok u)).isEmpty = false := by
      rw [List.isEmpty_eq_false]
      intro hnil
      have : t ∈ (unmountTargets mountpoints).filter (fun u => !ok u) := by
        rw [List.mem_filter]
        exact ⟨ht, by simp [hfail]⟩
      rw [hnil] at this
      simp at this
    rw [if_neg (by simp [hne])]

unseal List.merge List.mergeSort in
theorem unmountTargets_nested_example :
    unmountTargets ["/mnt/a", "/mnt/a/b", "/mnt/a/b/c"]
      = ["/mnt/a/b/c", "/mnt/a/b", "/mnt/a"] := by
  unfold unmountTargets
  decide

/-- C5: the targets of the unmount orchestrator are attempted in order of
non-increasing path length, and for the nested mountpoint set
a, a/b, a/b/c the attempt order is a/b/c, then a/b, then a. -/
theorem unmount_targets_longest_first (mountpoints : List String) :
    List.Sorted (fun x y : String => y.length ≤ x.length)
      (unmountTargets mountpoints) ∧
    unmountTargets ["/mnt/a", "/mnt/a/b", "/mnt/a/b/c"]
      = ["/mnt/a/b/c", "/mnt/a/b", "/mnt/a"] := by
  constructor
  · have h := @List.sorted_mergeSort String
      (fun a b : String => decide (b.length ≤ a.length))
      (fun a b c h1 h2 => by
        simp only [decide_eq_true_eq] at h1 h2 ⊢
        omega)
      (fun a b => by
        simp only [Bool.or_eq_true, decide_eq_true_eq]
        omega)
      ((mountpoints.filter (fun mp => !mp.isEmpty)).dedup)
    unfold unmountTargets
    exact h.imp (fun hab => by simpa using hab)
  · exact unmountTargets_nested_example

unseal List.merge List.mergeSort in
theorem unmount_collects_all_results_witness :
    unmount_device ["/mnt/x", "/mnt/x/y"] (fun s => s.length ≤ 6) =
      .error { message := "Failed to unmount: /mnt/x/y",
               partialUnmounted := ["/mnt/x"] } := by
  have h := (unmount_collects_all_results ["/mnt/x", "/mnt/x/y"]
    (fun s => s.length ≤ 6)).2 "/mnt/x/y"
    (by rw [show unmountTargets ["/mnt/x", "/mnt/x/y"]
          = ["/mnt/x/y", "/mnt/x"] from by unfold unmountTargets; decide]
        simp)
    (by decide)
  rw [h]
  rw [show unmountTargets ["/mnt/x", "/mnt/x/y"]
      = ["/mnt/x/y", "/mnt/x"] from by unfold unmountTargets; decide]
  rfl

/-! ## C6: zip sources — single entry, reported size, cached extraction -/

/-- C6: opening a `.zip` image source fails unless the archive holds
exactly one non-directory entry; with exactly one entry the reported size
is that entry's uncompressed size, every stream request returns the same
extraction target path, the first request performs the single extraction
(the counter moves from its value to its value plus one and the file then
exists), and any request made while the extracted file exists reuses it
without re-extracting (the state is unchanged). -/
theorem zip_source_single_entry_cached (zipName tempDir : String)
    (infos : List ZipInfo) :
    ((infos.filter (fun i => !i.is_dir)).length ≠ 1 →
      prepare_image_source_zip zipName tempDir infos =
        .error (.flashError "ZIP archives must contain exactly one image file")) ∧
    (∀ entry, infos.filter (fun i => !i.is_dir) = [entry] →
      ∃ m, prepare_image_source_zip zipName tempDir infos = .ok m ∧
        m.size = entry.file_size ∧
        (∀ s, (ensure_extracted m s).1 = m.target_path) ∧
        (∀ s, s.targetExists = false →
          (ensure_extracted m s).2 =
            { targetExists := true, extractions := s.extractions + 1 }) ∧
        (∀ s, s.targetExists = true →
          ensure_extracted m s = (m.target_path, s))) := by
  constructor
  · intro hne
    unfold prepare_image_source_zip
    cases hfilter : infos.filter (fun i => !i.is_dir) with
    | nil => rfl
    | cons a t =>
      cases t with
      | nil =>
        rw [hfilter] at hne
        simp at hne
      | cons b t2 => rfl
  · intro entry hfe
    refine ⟨{ target_path := tempDir ++ "/" ++ pathName entry.filename,
              size := entry.file_size,
              display_name := zipName ++ " -> " ++ entry.filename },
        ?_, rfl, ?_, ?_, ?_⟩
    · unfold prepare_image_source_zip
      rw [hfe]
    · intro s
      unfold ensure_extracted
      by_cases hs : s.targetExists <;> simp [hs]
    · intro s hs
      unfold ensure_extracted
      rw [if_neg (by simp [hs])]
    · intro s hs
      unfold ensure_extracted
      rw [if_pos hs]

theorem zip_source_single_entry_cached_witness :
    prepare_image_source_zip "img.zip" "/tmp/shark_etcher_zip_0"
        [{ filename := "disk/root.img", is_dir := false, file_size := 4096 }] =
      .ok { target_path :=
              "/tmp/shark_etcher_zip_0" ++ "/" ++ pathName "disk/root.img",
            size := 4096,
            display_name := "img.zip" ++ " -> " ++ "disk/root.img" } ∧
    (ensure_extracted
        { target_path :=
            "/tmp/shark_etcher_zip_0" ++ "/" ++ pathName "disk/root.img",
          size := 4096,
          display_name := "img.zip" ++ " -> " ++ "disk/root.img" }
        { targetExists := false, extractions := 0 }).2 =
      { targetExists := true, extractions := 1 } ∧
    ensure_extracted
        { target_path :=
            "/tmp/shark_etcher_zip_0" ++ "/" ++ pathName "disk/root.img",
          size := 4096,
          display_name := "img.zip" ++ " -> " ++ "disk/root.img" }
        { targetExists := true, extractions := 1 } =
      ("/tmp/shark_etcher_zip_0" ++ "/" ++ pathName "disk/root.img",
        { targetExists := true, extractions := 1 }) := by
  obtain ⟨m, hok, hsize, hpath, hfirst, hreuse⟩ :=
    (zip_source_single_entry_cached "img.zip" "/tmp/shark_etcher_zip_0"
      [{ filename := "disk/root.img", is_dir := false, file_size := 4096 }]).2
      { filename := "disk/root.img", is_dir := false, file_size := 4096 } rfl
  have hval : prepare_image_source_zip "img.zip" "/tmp/shark_etcher_zip_0"
      [{ filename := "disk/root.img", is_dir := false, file_size := 4096 }] =
      .ok { target_path :=
              "/tmp/shark_etcher_zip_0" ++ "/" ++ pathName "disk/root.img",
            size := 4096,
            display_name := "img.zip" ++ " -> " ++ "disk/root.img" } := by
    unfold prepare_image_source_zip
    rfl
  rw [hval] at hok
  injection hok with hm
  subst hm
  exact ⟨hval, hfirst { targetExists := false, extractions := 0 } rfl,
    hreuse { targetExists := true, extractions := 1 } rfl⟩

/-! ## C8: cleanup runs exactly once and never masks the result -/

theorem run_cleanup_counts (callbackRaises : List Bool) :
    run_cleanup callbackRaises = callbackRaises.length := by
  unfold run_cleanup
  have h : ∀ (l : List Bool) (k : Nat),
      l.foldl (fun invoked _raises => invoked + 1) k = k + l.length := by
    intro l
    induction l with
    | nil => intro k; simp
    | cons b t ih => intro k; simp [ih]; omega
  simpa using h callbackRaises 0

/-- C8: on every exit path of `flash_image` — success, write failure, or
verification failure — every registered cleanup callback is invoked exactly
once (the cleanup capability runs once, and `run_cleanup` swallows callback
exceptions so all callbacks run), and the primary result is the same as it
would be with no raising callbacks at all: a cleanup failure never masks
the primary error or the successful result. -/
theorem cleanup_runs_once_and_never_masks (writeRes : Except PyExc Nat)
    (verifyRes : Except PyExc Unit) (verify dryRun : Bool)
    (callbackRaises : List Bool) :
    (flash_image writeRes verifyRes verify dryRun callbackRaises).2 =
      callbackRaises.length ∧
    (flash_image writeRes verifyRes verify dryRun callbackRaises).1 =
      (flash_image writeRes verifyRes verify dryRun []).1 := by
  unfold flash_image
  cases writeRes with
  | error e => simp [run_cleanup_counts]
  | ok w =>
    cases hvd : verify && !dryRun with
    | false => simp [run_cleanup_counts]
    | true =>
      cases verifyRes with
      | error e => simp [run_cleanup_counts]
      | ok u => simp [run_cleanup_counts]

/-! ## C7: worker terminal events and exit codes -/

theorem workerFlashPhase_shape (pre flashEvents : List WorkerEvent)
    (flashRes : FlashResult) (d : Bool) :
    ∃ t, (workerFlashPhase pre flashEvents flashRes d).1
        = pre ++ flashEvents ++ [t]
      ∧ isTerminalEvent t = true
      ∧ ((workerFlashPhase pre flashEvents flashRes d).2 = 0 ↔
          ∃ w dd, t = WorkerEvent.done w dd) := by
  cases flashRes with
  | ok w => exact ⟨.done w d, rfl, rfl, by simp [workerFlashPhase]⟩
  | flashError m => exact ⟨.error m, rfl, rfl, by simp [workerFlashPhase]⟩
  | verificationError m => exact ⟨.error m, rfl, rfl, by simp [workerFlashPhase]⟩
  | keyboardInterrupt =>
      exact ⟨.error "Operation cancelled", rfl, rfl, by simp [workerFlashPhase]⟩
  | unexpected m =>
      exact ⟨.error ("Unexpected error: " ++ m), rfl, rfl,
        by simp [workerFlashPhase]⟩

theorem run_worker_missing_args (args : WorkerArgs)
    (deviceMounts : Option (List String))
    (unmountRes : Except UnmountErrorM (List String))
    (flashEvents : List WorkerEvent) (flashRes : FlashResult)
    (hmiss : (pyFalsy args.image || pyFalsy args.device) = true) :
    run_worker args deviceMounts unmountRes flashEvents flashRes
      = ([.error "Worker missing required arguments"], 64) := by
  simp [run_worker, hmiss]

theorem run_worker_no_device_info (args : WorkerArgs)
    (unmountRes : Except UnmountErrorM (List String))
    (flashEvents : List WorkerEvent) (flashRes : FlashResult)
    (hmiss : (pyFalsy args.image || pyFalsy args.device) = false) :
    run_worker args none unmountRes flashEvents flashRes
      = workerFlashPhase
          [.log ("Warning: could not refresh device info for "
            ++ args.device.getD "")]
          flashEvents flashRes args.dry_run := by
  simp [run_worker, hmiss]

theorem run_worker_no_unmount_needed (args : WorkerArgs)
    (mounts : List String)
    (unmountRes : Except UnmountErrorM (List String))
    (flashEvents : List WorkerEvent) (flashRes : FlashResult)
    (hmiss : (pyFalsy args.image || pyFalsy args.device) = false)
    (hcond : (!mounts.isEmpty && !args.dry_run) = false) :
    run_worker args (some mounts) unmountRes flashEvents flashRes
      = workerFlashPhase [] flashEvents flashRes args.dry_run := by
  simp only [run_worker, hmiss, Bool.false_eq_true, if_false, hcond]

theorem run_worker_unmount_error (args : WorkerArgs)
    (mounts : List String) (exc : UnmountErrorM)
    (flashEvents : List WorkerEvent) (flashRes : FlashResult)
    (hmiss : (pyFalsy args.image || pyFalsy args.device) = false)
    (hcond : (!mounts.isEmpty && !args.dry_run) = true) :
    run_worker args (some mounts) (.error exc) flashEvents flashRes
      = ([.status ("Unmounting " ++ args.device.getD ""),
          .error exc.message], 10) := by
  simp only [run_worker, hmiss, Bool.false_eq_true, if_false, hcond, if_true]

theorem run_worker_unmount_ok (args : WorkerArgs)
    (mounts unmounted : List String)
    (flashEvents : List WorkerEvent) (flashRes : FlashResult)
    (hmiss : (pyFalsy args.image || pyFalsy args.device) = false)
    (hcond : (!mounts.isEmpty && !args.dry_run) = true) :
    run_worker args (some mounts) (.ok unmounted) flashEvents flashRes
      = workerFlashPhase
          (.status ("Unmounting " ++ args.device.getD "")
            :: unmounted.map (fun mp => .log ("Unmounted " ++ mp)))
          flashEvents flashRes args.dry_run := by
  simp only [run_worker, hmiss, Bool.false_eq_true, if_false, hcond, if_true]

theorem run_worker_shape (args : WorkerArgs)
    (deviceMounts : Option (List String))
    (unmountRes : Except UnmountErrorM (List String))
    (flashEvents : List WorkerEvent) (flashRes : FlashResult)
    (hflash : ∀ e ∈ flashEvents, isTerminalEvent e = false) :
    ∃ evs t,
      (run_worker args deviceMounts unmountRes flashEvents flashRes).1
        = evs ++ [t]
      ∧ (∀ e ∈ evs, isTerminalEvent e = false)
      ∧ isTerminalEvent t = true
      ∧ ((run_worker args deviceMounts unmountRes flashEvents flashRes).2 = 0
          ↔ ∃ w d, t = WorkerEvent.done w d) := by
  have hphase : ∀ (pre : List WorkerEvent),
      (∀ e ∈ pre, isTerminalEvent e = false) →
      run_worker args deviceMounts unmountRes flashEvents flashRes
        = workerFlashPhase pre flashEvents flashRes args.dry_run →
      ∃ evs t,
        (run_worker args deviceMounts unmountRes flashEvents flashRes).1
          = evs ++ [t]
        ∧ (∀ e ∈ evs, isTerminalEvent e = false)
        ∧ isTerminalEvent t = true
        ∧ ((run_worker args deviceMounts unmountRes flashEvents flashRes).2 = 0
            ↔ ∃ w d, t = WorkerEvent.done w d) := by
    intro pre hpre heq
    obtain ⟨t, h1, h2, h3⟩ :=
      workerFlashPhase_shape pre flashEvents flashRes args.dry_run
    refine ⟨pre ++ flashEvents, t, ?_, ?_, h2, ?_⟩
    · rw [heq, h1, List.append_assoc]
    · intro e he
      rcases List.mem_append.mp he with h | h
      · exact hpre e h
      · exact hflash e h
    · rw [heq]
      exact h3
  cases hmiss : (pyFalsy args.image || pyFalsy args.device) with
  | true =>
    refine ⟨[], .error "Worker missing required arguments", ?_, ?_, rfl, ?_⟩
    · rw [run_worker_missing_args args deviceMounts unmountRes flashEvents
        flashRes hmiss]
      rfl
    · intro e he
      simp at he
    · rw [run_worker_missing_args args deviceMounts unmountRes flashEvents
        flashRes hmiss]
      simp
  | false =>
    cases deviceMounts with
    | none =>
      exact hphase _
        (by
          intro e he
          rcases List.mem_cons.mp he with rfl | h
          · rfl
          · simp at h)
        (run_worker_no_device_info args unmountRes flashEvents flashRes hmiss)
    | some mounts =>
      cases hcond : (!mounts.isEmpty && !args.dry_run) with
      | false =>
        exact hphase [] (by intro e he; simp at he)
          (run_worker_no_unmount_needed args mounts unmountRes flashEvents
            flashRes hmiss hcond)
      | true =>
        cases unmountRes with
        | error exc =>
          refine ⟨[.status ("Unmounting " ++ args.device.getD "")],
            .error exc.message, ?_, ?_, rfl, ?_⟩
          · rw [run_worker_unmount_error args mounts exc flashEvents flashRes
              hmiss hcond]
            rfl
          · intro e he
            rcases List.mem_cons.mp he with rfl | h
            · rfl
            · simp at h
          · rw [run_worker_unmount_error args mounts exc flashEvents flashRes
              hmiss hcond]
            simp
        | ok unmounted =>
          exact hphase _
            (by
              intro e he
              rcases List.mem_cons.mp he with rfl | h
              · rfl
              · rcases List.mem_map.mp h with ⟨mp, _, rfl⟩
                rfl)
            (run_worker_unmount_ok args mounts unmounted flashEvents flashRes
              hmiss hcond)

/-- C7: a worker invocation emits exactly one terminal event — `done` on
success, `error` on any failure — preceded only by non-terminal
progress/status/log events, exits with code 0 exactly when the terminal
event is `done`, and uses a distinct nonzero exit code per failure
category: 64 missing required arguments, 10 unmount failure, 2 write
failure, 3 verification failure, 130 operation cancelled, 99 unexpected
failure. -/
theorem worker_terminal_event_and_exit_codes (args : WorkerArgs)
    (deviceMounts : Option (List String))
    (unmountRes : Except UnmountErrorM (List String))
    (flashEvents : List WorkerEvent) (flashRes : FlashResult)
    (hflash : ∀ e ∈ flashEvents, isTerminalEvent e = false) :
    (∃ evs t,
      (run_worker args deviceMounts unmountRes flashEvents flashRes).1
        = evs ++ [t]
      ∧ (∀ e ∈ evs, isTerminalEvent e = false)
      ∧ isTerminalEvent t = true
      ∧ ((run_worker args deviceMounts unmountRes flashEvents flashRes).2 = 0
          ↔ ∃ w d, t = WorkerEvent.done w d)) ∧
    ((pyFalsy args.image || pyFalsy args.device) = true →
      run_worker args deviceMounts unmountRes flashEvents flashRes
        = ([.error "Worker missing required arguments"], 64)) ∧
    (∀ mounts exc, (pyFalsy args.image || pyFalsy args.device) = false →
      deviceMounts = some mounts → (!mounts.isEmpty && !args.dry_run) = true →
      unmountRes = .error exc →
      run_worker args deviceMounts unmountRes flashEvents flashRes
        = ([.status ("Unmounting " ++ args.device.getD ""),
            .error exc.message], 10)) ∧
    (∀ pre, (workerFlashPhase pre flashEvents flashRes args.dry_run).2 =
      match flashRes with
      | .ok _ => 0
      | .flashError _ => 2
      | .verificationError _ => 3
      | .keyboardInterrupt => 130
      | .unexpected _ => 99) := by
  refine ⟨run_worker_shape args deviceMounts unmountRes flashEvents flashRes
    hflash, ?_, ?_, ?_⟩
  · intro hmiss
    exact run_worker_missing_args args deviceMounts unmountRes flashEvents
      flashRes hmiss
  · intro mounts exc hmiss hdm hcond hun
    subst hdm
    subst hun
    exact run_worker_unmount_error args mounts exc flashEvents flashRes
      hmiss hcond
  · intro pre
    cases flashRes <;> rfl

theorem worker_terminal_event_and_exit_codes_witness :
    run_worker
      { image := some "a.img", device := some "/dev/sdb", dry_run := false }
      (some ["/mnt/x"])
      (.error
        { message := "Failed to unmount: /mnt/x", partialUnmounted := [] })
      [] (.ok 100)
      = ([.status ("Unmounting " ++ "/dev/sdb"),
          .error "Failed to unmount: /mnt/x"], 10) := by
  have h := (worker_terminal_event_and_exit_codes
    { image := some "a.img", device := some "/dev/sdb", dry_run := false }
    (some ["/mnt/x"])
    (.error { message := "Failed to unmount: /mnt/x", partialUnmounted := [] })
    [] (.ok 100) (by intro e he; simp at he)).2.2.1 ["/mnt/x"]
    { message := "Failed to unmount: /mnt/x", partialUnmounted := [] }
    rfl rfl rfl rfl
  simpa using h

end SharkEtcher
